import Mathlib

/-!
Verification of the document-store layer (`DBObject` in `src/db/db_object.py`)
and of the lesson-setup websocket handlers
(`locking_panels/lesson_setup/__init__.py`) of the artificialAlan repository.

The store layer is embedded shallowly: Python dicts and BSON documents become
association lists from field names to values, a collection becomes a list of
documents, and the pymongo collection interface the code calls (`find_one`,
`insert`, `update` with a `$set` change spec, `find_and_modify` with
`new=True`) is modelled per its documented contract: `update` reports the
count of matched documents, `insert` fails with a duplicate-key condition
when the unique `_id` index is violated, and `find_and_modify` returns the
post-modification document or nothing.  Effectful Python methods become pure
functions returning an explicit result record (possible exception, object
state after the call, collection state after the call).
-/

deriving instance DecidableEq for Except

namespace ArtificialAlan

/-- Field names of a document (Python dict keys). -/
abbrev Field := String

/-- Values stored in document fields. -/
inductive Val where
  | null
  | str (s : String)
  | int (n : Int)
  | bool (b : Bool)
deriving DecidableEq, Repr

/-- Truthiness of a value, as Python evaluates it in an `if`:
`None`, the empty string, `0` and `False` are falsy. -/
def pyTruthy : Val → Bool
  | Val.null => false
  | Val.str s => decide (s ≠ "")
  | Val.int n => decide (n ≠ 0)
  | Val.bool b => b

/-- A document or Python dict: an association list from field names to
values.  Lookup takes the first binding with the given key. -/
abbrev Doc := List (Field × Val)

/-- Lookup of a field in a document (`doc[k]` returning an option). -/
def getField (doc : Doc) (k : Field) : Option Val :=
  match doc with
  | [] => none
  | (k0, v) :: rest => if k0 = k then some v else getField rest k

/-- Assignment of a field of a document (`doc[k] = v`): replaces the first
binding with key `k` in place, or appends a new binding. -/
def setField (doc : Doc) (k : Field) (v : Val) : Doc :=
  match doc with
  | [] => [(k, v)]
  | (k0, v0) :: rest =>
    if k0 = k then (k, v) :: rest else (k0, v0) :: setField rest k v

/-- Merge of dict `d` into `doc` (`doc.update(d)` in Python): bindings of `d`
are written in order, later ones overriding earlier ones. -/
def dictUpdate (doc : Doc) : Doc → Doc
  | [] => doc
  | (k, v) :: rest => dictUpdate (setField doc k v) rest

/-- Keys of a document, in order. -/
def docKeys (doc : Doc) : List Field := doc.map Prod.fst

theorem getField_setField (doc : Doc) (k : Field) (v : Val) (q : Field) :
    getField (setField doc k v) q = if k = q then some v else getField doc q := by
  induction doc with
  | nil => simp [setField, getField]
  | cons p rest ih =>
    obtain ⟨k0, v0⟩ := p
    by_cases h : k0 = k
    · subst h
      by_cases hq : k0 = q <;> simp [setField, getField, hq]
    · by_cases hq : k0 = q
      · subst hq
        have hkq : ¬ k = k0 := fun hc => h hc.symm
        simp [setField, getField, h, hkq]
      · simp [setField, getField, h, hq, ih]

theorem getField_eq_none_of_not_mem (doc : Doc) (k : Field)
    (h : k ∉ docKeys doc) : getField doc k = none := by
  induction doc with
  | nil => rfl
  | cons p rest ih =>
    obtain ⟨k0, v0⟩ := p
    simp only [docKeys, List.map_cons, List.mem_cons, not_or] at h
    have hne : ¬ k0 = k := fun hc => h.1 hc.symm
    simp [getField, hne, ih (by simpa [docKeys] using h.2)]

theorem getField_dictUpdate (doc d : Doc) (k : Field)
    (hnd : (docKeys d).Nodup) :
    getField (dictUpdate doc d) k = ((getField d k).or (getField doc k)) := by
  induction d generalizing doc with
  | nil => simp [dictUpdate, getField]
  | cons p rest ih =>
    obtain ⟨k0, v0⟩ := p
    simp only [docKeys, List.map_cons, List.nodup_cons] at hnd
    rw [dictUpdate, ih _ hnd.2, getField_setField]
    by_cases hk : k0 = k
    · subst hk
      have : getField rest k0 = none :=
        getField_eq_none_of_not_mem rest k0 (by simpa [docKeys] using hnd.1)
      simp [getField, this]
    · simp [getField, hk]

theorem mem_setField (doc : Doc) (k : Field) (v : Val) :
    (k, v) ∈ setField doc k v := by
  induction doc with
  | nil => simp [setField]
  | cons p rest ih =>
    obtain ⟨k0, v0⟩ := p
    by_cases h : k0 = k <;> simp [setField, h, ih]

/-- A collection of documents: the external NoSQL collection behind a
`DBObject` subclass. -/
abbrev Collection := List Doc

/-- Match of a filter dict against a document: every binding of the filter
must be present in the document with the same value.  This is the
field-equality fragment of the query language, which is all the store layer
itself constructs (`condition` dicts plus the injected `_id`). -/
def condMatches (c : Doc) (doc : Doc) : Bool :=
  c.all (fun kv => decide (getField doc kv.1 = some kv.2))

/-- Model of `collection.find_one(filter)`: the first document matching the
filter, if any. -/
def findOne (coll : Collection) (filter : Doc) : Option Doc :=
  coll.find? (fun doc => condMatches filter doc)

/-- Mongo field projection as used by `find_one(filter, fields)`: the result
keeps the `_id` field plus the requested fields that are present in the
document. -/
def projectDoc (doc : Doc) (fields : List Field) : Doc :=
  match doc with
  | [] => []
  | (k0, v0) :: rest =>
    if k0 = "_id" ∨ k0 ∈ fields then (k0, v0) :: projectDoc rest fields
    else projectDoc rest fields

/-- Model of `collection.update(filter, change)` with a `$set` change spec
(the only shape the store layer issues): every matched document has the
`$set` dict merged into it, and the returned `n` is the count of matched
documents, per the contract assumed in `store_dict_if`'s doc string. -/
def collUpdate (coll : Collection) (filter : Doc) (d : Doc) :
    Collection × Nat :=
  (coll.map (fun doc => if condMatches filter doc then dictUpdate doc d else doc),
   (coll.filter (fun doc => condMatches filter doc)).length)

/-- Exceptions surfaced by the store layer: the repository's
`ConditionNotMetError` and `NoObjectReturnedFromDB`, Python's `ValueError`,
`KeyError`, `AttributeError` and `AssertionError`, and pymongo's
`DuplicateKeyError`. -/
inductive DBErr where
  | conditionNotMet
  | noObjectReturned
  | valueErr
  | duplicateKey
  | keyErr
  | attrErr
  | assertionErr
deriving DecidableEq, Repr

/-- Model of `collection.insert(doc)`: appends the document, or fails with
the duplicate-key condition when a stored document already has the same
`_id` (unique index on `_id`). -/
def insertDoc (coll : Collection) (doc : Doc) : Except DBErr Collection :=
  if coll.any (fun d0 => decide (getField d0 "_id" = getField doc "_id")) then
    Except.error DBErr.duplicateKey
  else
    Except.ok (coll ++ [doc])

/-- Update specifications accepted by `find_and_modify`: the store-defined
change operators the business layer uses (`$set` merge and `$inc`). -/
inductive Effect where
  | setOp (d : Doc)
  | incOp (k : Field) (n : Int)
deriving DecidableEq, Repr

/-- Application of an update specification to a document: `$set` merges the
given dict; `$inc` adds to an integer field, treating an absent or
non-integer field as zero. -/
def applyEffect : Effect → Doc → Doc
  | Effect.setOp d, doc => dictUpdate doc d
  | Effect.incOp k n, doc =>
    match getField doc k with
    | some (Val.int m) => setField doc k (Val.int (m + n))
    | _ => setField doc k (Val.int n)

/-- Model of `collection.find_and_modify(filter, change, new=True)`: the
first matching document is replaced by the modified document, which is also
returned; with no match the collection is unchanged and nothing is
returned. -/
def findAndModify : Collection → Doc → Effect → Collection × Option Doc
  | [], _, _ => ([], none)
  | doc :: rest, filter, e =>
    if condMatches filter doc then
      (applyEffect e doc :: rest, some (applyEffect e doc))
    else
      let r := findAndModify rest filter e
      (doc :: r.1, r.2)

/-- In-memory representative of one document: `DBObject` holds the local
cache `self._data`. -/
structure DBObject where
  data : Doc
deriving DecidableEq, Repr

/-- Outcome of an effectful store-layer call: the exception raised if any,
the object state after the call, and the backend collection state after the
call. -/
structure StoreResult where
  err : Option DBErr
  obj : DBObject
  coll : Collection
deriving DecidableEq, Repr

/-- Model of `DBObject.store_dict_if(condition, d, update_data)`
(db_object.py, lines 249-340): the condition dict is augmented with the
object's id (`condition.update(_id=self.id)`), a single backend update with
a `$set` change spec is issued, the matched count is asserted to be 0 or 1,
a zero count raises `ConditionNotMetError`, and on success the local cache
is merged with `d` exactly when `update_data` is true.  Reading `self.id`
from a cache without `_id` raises `KeyError`. -/
def store_dict_if (o : DBObject) (coll : Collection) (condition d : Doc)
    (update_data : Bool) : StoreResult :=
  match getField o.data "_id" with
  | none => ⟨some DBErr.keyErr, o, coll⟩
  | some i =>
    let upd := collUpdate coll (setField condition "_id" i) d
    if 2 ≤ upd.2 then ⟨some DBErr.assertionErr, o, upd.1⟩
    else if upd.2 = 0 then ⟨some DBErr.conditionNotMet, o, upd.1⟩
    else if update_data then ⟨none, ⟨dictUpdate o.data d⟩, upd.1⟩
    else ⟨none, o, upd.1⟩

/-- Model of `DBObject.modify_if(condition, effect)` (db_object.py, lines
360-410): the condition dict is augmented with the object's id, the backend
`find_and_modify` with `new=True` is issued, a missing result raises
`ConditionNotMetError`, and on success the whole local cache is replaced by
the returned post-modification document. -/
def modify_if (o : DBObject) (coll : Collection) (condition : Doc)
    (effect : Effect) : StoreResult :=
  match getField o.data "_id" with
  | none => ⟨some DBErr.keyErr, o, coll⟩
  | some i =>
    let fam := findAndModify coll (setField condition "_id" i) effect
    match fam.2 with
    | none => ⟨some DBErr.conditionNotMet, o, fam.1⟩
    | some newDoc => ⟨none, ⟨newDoc⟩, fam.1⟩

/-- Model of `DBObject.__getattr__` (db_object.py, lines 147-155): a field
read consults the local cache `self._data` first, then the class-level
`defaults` mapping, and raises `AttributeError` when the name is in
neither. -/
def getattrFallback (data defaults : Doc) (name : Field) : Except DBErr Val :=
  match getField data name with
  | some v => Except.ok v
  | none =>
    match getField defaults name with
    | some v => Except.ok v
    | none => Except.error DBErr.attrErr

/-- Model of `DBObject.sync(*fields)` (db_object.py, lines 507-523): the
document is re-read with a field projection when fields are named, a missing
or empty result raises `NoObjectReturnedFromDB`, and the fetched data is
merged into the cache (named fields) or replaces it wholesale (no fields
named). -/
def sync (o : DBObject) (coll : Collection) (fields : List Field) :
    Except DBErr DBObject :=
  match getField o.data "_id" with
  | none => Except.error DBErr.keyErr
  | some i =>
    match findOne coll [("_id", i)] with
    | none => Except.error DBErr.noObjectReturned
    | some doc0 =>
      let data := if fields.isEmpty then doc0 else projectDoc doc0 fields
      if data.isEmpty then Except.error DBErr.noObjectReturned
      else if fields.isEmpty then Except.ok ⟨data⟩
      else Except.ok ⟨dictUpdate o.data data⟩

/-- Model of a `DBRef`: the referenced collection's name plus the referenced
document's id. -/
structure DBRefM where
  collection : String
  id : Val
deriving DecidableEq, Repr

/-- Model of `DBObject._check_get_arguments` (db_object.py, lines 30-41):
`ValueError` when both reference arguments are given, or when a given
dbref's collection differs from the class's backing collection. -/
def checkGetArguments (collName : String) (idArg : Option Val)
    (dbref : Option DBRefM) : Option DBErr :=
  if idArg.isSome && dbref.isSome then some DBErr.valueErr
  else
    match dbref with
    | some r => if r.collection = collName then none else some DBErr.valueErr
    | none => none

/-- Model of `db.dereference(dbref)`: fetches the referenced document from
the referenced collection; the collection check of `get` has already ensured
this is the class's own collection. -/
def dereference (coll : Collection) (r : DBRefM) : Option Doc :=
  findOne coll [("_id", r.id)]

/-- Wrapping of a fetched result as the `get` body does: `None` or an empty
document (both falsy in Python) raise `NoObjectReturnedFromDB`; otherwise
the document seeds the new object's cache. -/
def wrapFetched (fetched : Option Doc) : Except DBErr DBObject :=
  match fetched with
  | some doc =>
    if doc.isEmpty then Except.error DBErr.noObjectReturned
    else Except.ok ⟨doc⟩
  | none => Except.error DBErr.noObjectReturned

/-- Model of `DBObject.get(id_, dbref)` (db_object.py, lines 43-110): after
the argument check, a truthy `id_` selects a `find_one` on `_id`, an
otherwise given `dbref` selects a dereference, and when both are falsy a
`ValueError` is raised. -/
def get (collName : String) (coll : Collection) (idArg : Option Val)
    (dbref : Option DBRefM) : Except DBErr DBObject :=
  match checkGetArguments collName idArg dbref with
  | some e => Except.error e
  | none =>
    match idArg with
    | some i =>
      if pyTruthy i then wrapFetched (findOne coll [("_id", i)])
      else
        match dbref with
        | some r => wrapFetched (dereference coll r)
        | none => Except.error DBErr.valueErr
    | none =>
      match dbref with
      | some r => wrapFetched (dereference coll r)
      | none => Except.error DBErr.valueErr

/-- Model of `DBObject.create(id_)` (db_object.py, lines 112-134): inserts a
document holding only the identifier field, then performs `get(id_)`. -/
def create (collName : String) (coll : Collection) (idVal : Val) :
    Except DBErr (DBObject × Collection) :=
  match insertDoc coll [("_id", idVal)] with
  | Except.error e => Except.error e
  | Except.ok coll1 =>
    match get collName coll1 (some idVal) none with
    | Except.error e => Except.error e
    | Except.ok o => Except.ok (o, coll1)

/-- Exception kinds reaching the lesson-setup handlers' `except` clauses. -/
inductive Exc where
  | keyErr
  | attrErr
  | duplicateKey
  | noObjectReturned
  | conditionNotMet
  | other
deriving DecidableEq, Repr

/-- Observable outcome of a handler's exception treatment. -/
inductive HandlerOutcome where
  | sentMalformed
  | sentUserNotLoaded
  | sentRoomNotLoaded
  | sentDuplicate
  | swallowed
  | propagated (e : Exc)
deriving DecidableEq, Repr

/-- Model of the `except` clauses of `LessonSetupWSC.create_course`
(lesson_setup/__init__.py, lines 54-66): `KeyError` is always answered with
a malformed-message notice; `AttributeError` is answered with a
user-not-loaded notice only when the handler lacks the `user` attribute and
is otherwise absorbed with no action (the clause has no re-raise branch);
`DuplicateKeyError` is answered with a duplicate result; every other
exception propagates. -/
def createCourseExcept (e : Exc) (handlerHasUser : Bool) : HandlerOutcome :=
  match e with
  | Exc.keyErr => HandlerOutcome.sentMalformed
  | Exc.attrErr =>
    if handlerHasUser then HandlerOutcome.swallowed
    else HandlerOutcome.sentUserNotLoaded
  | Exc.duplicateKey => HandlerOutcome.sentDuplicate
  | e0 => HandlerOutcome.propagated e0

/-- Model of the `except` clauses of
`LessonSetupWSC.assign_course_to_current_room` (lesson_setup/__init__.py,
lines 106-128): `KeyError` is answered with a malformed-message notice only
when `course_id` is absent from the message and re-raised otherwise;
`NoObjectReturnedFromDB` is answered with a malformed-message notice;
`AttributeError` is answered with a user-not-loaded or room-not-loaded
notice when the corresponding handler attribute is missing and re-raised
otherwise; every other exception propagates. -/
def assignCourseExcept (e : Exc) (courseIdInMsg : Bool) (hasUser : Bool)
    (roomCodeLoaded : Bool) : HandlerOutcome :=
  match e with
  | Exc.keyErr =>
    if courseIdInMsg then HandlerOutcome.propagated Exc.keyErr
    else HandlerOutcome.sentMalformed
  | Exc.noObjectReturned => HandlerOutcome.sentMalformed
  | Exc.attrErr =>
    if hasUser then
      if roomCodeLoaded then HandlerOutcome.propagated Exc.attrErr
      else HandlerOutcome.sentRoomNotLoaded
    else HandlerOutcome.sentUserNotLoaded
  | e0 => HandlerOutcome.propagated e0

/-- The per-connection session context touched by the local-channel
handler: the current course reference, if any. -/
structure LessonCtx where
  course : Option DBObject
deriving DecidableEq, Repr

/-- Outcome of the local-channel handler: the exception raised if any, the
user object after the call, the session context after the call, and the
message types sent on the originating connection's channel `w`. -/
structure ForwardResult where
  err : Option DBErr
  user : DBObject
  ctx : LessonCtx
  sentW : List String
deriving DecidableEq, Repr

/-- Model of `LessonSetupWSC.sync_course_id_and_forward_to_client`
(lesson_setup/__init__.py, lines 130-144), the local-channel handler of
`course.assignment.ok`: when the `course_assignment_source` attribute is
present and truthy the store sync and course re-derivation are skipped;
otherwise the user's `course_id` is synced from the store and, when not
`None`, the course is re-fetched into the session context; finally a
`course.assignment.ok` notice is sent on channel `w`.  An exception from the
store layer propagates and skips the send. -/
def sync_course_id_and_forward_to_client (flag : Option Bool)
    (userDefaults : Doc) (user : DBObject) (userColl : Collection)
    (courseCollName : String) (courseColl : Collection) (ctx : LessonCtx) :
    ForwardResult :=
  if flag.getD false then
    ⟨none, user, ctx, ["course.assignment.ok"]⟩
  else
    match sync user userColl ["course_id"] with
    | Except.error e => ⟨some e, user, ctx, []⟩
    | Except.ok user2 =>
      match getattrFallback user2.data userDefaults "course_id" with
      | Except.error e => ⟨some e, user2, ctx, []⟩
      | Except.ok cid =>
        if cid = Val.null then
          ⟨none, user2, ctx, ["course.assignment.ok"]⟩
        else
          match get courseCollName courseColl (some cid) none with
          | Except.error e => ⟨some e, user2, ctx, []⟩
          | Except.ok course =>
            ⟨none, user2, ⟨some course⟩, ["course.assignment.ok"]⟩

/-- Python-level view of a `DBObject` instance: the instance `__dict__`
entries set by plain attribute assignment (other than `_data`), plus the
cache `_data` itself. -/
structure PyObj where
  instAttrs : Doc
  data : Doc
deriving DecidableEq, Repr

/-- Model of `hasattr(self, name)` on a `DBObject`: normal attribute lookup
through the instance `__dict__`, then the `__getattr__` fallback through the
cache and the `defaults` mapping. -/
def hasattrPy (defaults : Doc) (o : PyObj) (name : Field) : Bool :=
  (getField o.instAttrs name).isSome || (getField o.data name).isSome ||
    (getField defaults name).isSome

/-- Outcome of a dotted attribute assignment: the object afterwards, plus
the background `store(name, value, update_data)` call scheduled on the event
loop, if any. -/
structure SetattrResult where
  obj : PyObj
  scheduled : Option (Field × Val × Bool)
deriving DecidableEq, Repr

/-- Model of `DBObject.__setattr__` (db_object.py, lines 157-167): when the
name already resolves (instance attribute, cached field or declared
default), a plain instance attribute is set; only otherwise is the cache
written directly and an unconditional background `store` with
`update_data=False` scheduled. -/
def setattrPy (defaults : Doc) (o : PyObj) (name : Field) (value : Val) :
    SetattrResult :=
  if hasattrPy defaults o name then
    ⟨⟨setField o.instAttrs name value, o.data⟩, none⟩
  else
    ⟨⟨o.instAttrs, setField o.data name value⟩, some (name, value, false)⟩

/-- Model of a dotted attribute read on a `DBObject` instance: the instance
`__dict__` wins over the `__getattr__` fallback. -/
def readAttrPy (defaults : Doc) (o : PyObj) (name : Field) :
    Except DBErr Val :=
  match getField o.instAttrs name with
  | some v => Except.ok v
  | none => getattrFallback o.data defaults name

theorem condMatches_getField {c doc : Doc} {k : Field} {v : Val}
    (hmem : (k, v) ∈ c) (h : condMatches c doc = true) :
    getField doc k = some v := by
  have := (List.all_eq_true.mp h) (k, v) hmem
  simpa using this

theorem condMatches_singleton_ne_nil {i : Val} {doc : Doc}
    (h : condMatches [("_id", i)] doc = true) : doc.isEmpty = false := by
  cases doc with
  | nil => simp [condMatches, getField] at h
  | cons p rest => simp [List.isEmpty]

theorem collUpdate_fst_of_no_match (coll : Collection) (f d : Doc)
    (h : ∀ doc ∈ coll, condMatches f doc = false) :
    (collUpdate coll f d).1 = coll := by
  unfold collUpdate
  simp only
  calc coll.map (fun doc => if condMatches f doc then dictUpdate doc d else doc)
      = coll.map id := List.map_congr_left (fun doc hdoc => by simp [h doc hdoc])
    _ = coll := List.map_id coll

theorem collUpdate_snd_eq_zero (coll : Collection) (f d : Doc)
    (h : ∀ doc ∈ coll, condMatches f doc = false) :
    (collUpdate coll f d).2 = 0 := by
  unfold collUpdate
  simp only [List.length_eq_zero, List.filter_eq_nil_iff]
  intro doc hdoc
  simp [h doc hdoc]

theorem findAndModify_of_no_match (coll : Collection) (f : Doc) (e : Effect)
    (h : ∀ doc ∈ coll, condMatches f doc = false) :
    findAndModify coll f e = (coll, none) := by
  induction coll with
  | nil => rfl
  | cons doc rest ih =>
    have hd : condMatches f doc = false := h doc (by simp)
    have hr := ih (fun d0 hd0 => h d0 (by simp [hd0]))
    simp [findAndModify, hd, hr]

theorem findAndModify_split (l1 l2 : Collection) (doc : Doc) (f : Doc)
    (e : Effect) (h1 : ∀ d0 ∈ l1, condMatches f d0 = false)
    (h : condMatches f doc = true) :
    findAndModify (l1 ++ doc :: l2) f e
      = (l1 ++ applyEffect e doc :: l2, some (applyEffect e doc)) := by
  induction l1 with
  | nil => simp [findAndModify, h]
  | cons d0 rest ih =>
    have hd0 : condMatches f d0 = false := h1 d0 (by simp)
    have hr := ih (fun d1 hd1 => h1 d1 (by simp [hd1]))
    simp [findAndModify, hd0, hr]

theorem find?_append_of_none {p : Doc → Bool} (l1 l2 : Collection)
    (h : ∀ x ∈ l1, p x = false) :
    List.find? p (l1 ++ l2) = List.find? p l2 := by
  rw [List.find?_append]
  have : List.find? p l1 = none :=
    List.find?_eq_none.mpr (fun x hx => by simp [h x hx])
  simp [this]

theorem getField_projectDoc (doc : Doc) (fields : List Field) (k : Field) :
    getField (projectDoc doc fields) k
      = if k = "_id" ∨ k ∈ fields then getField doc k else none := by
  induction doc with
  | nil => simp [projectDoc, getField]
  | cons p rest ih =>
    obtain ⟨k0, v0⟩ := p
    by_cases hkor : k0 = "_id" ∨ k0 ∈ fields
    · by_cases hk : k0 = k
      · subst hk
        simp [projectDoc, hkor, getField]
      · simp [projectDoc, hkor, getField, hk, ih]
    · by_cases hk : k0 = k
      · subst hk
        simp [projectDoc, hkor, getField, ih]
      · simp [projectDoc, hkor, getField, hk, ih]

theorem projectDoc_sublist (doc : Doc) (fields : List Field) :
    List.Sublist (projectDoc doc fields) doc := by
  induction doc with
  | nil => simp [projectDoc]
  | cons p rest ih =>
    obtain ⟨k0, v0⟩ := p
    by_cases hkor : k0 = "_id" ∨ k0 ∈ fields
    · simpa [projectDoc, hkor] using List.Sublist.cons₂ (k0, v0) ih
    · simpa [projectDoc, hkor] using List.Sublist.cons (k0, v0) ih

theorem docKeys_projectDoc_nodup (doc : Doc) (fields : List Field)
    (h : (docKeys doc).Nodup) : (docKeys (projectDoc doc fields)).Nodup :=
  List.Nodup.sublist
    (List.Sublist.map Prod.fst (projectDoc_sublist doc fields)) h

/-- C2: for every stored object, condition dict and effect, `modify_if`
applies the effect to the document matching the condition augmented with the
object's id and, on success, replaces the entire local cache with the
post-modification document returned by the backend; when no document
matches, it raises `ConditionNotMetError` and leaves the local cache (and
the backend) unchanged. -/
theorem C2_modify_if_spec (o : DBObject) (coll : Collection) (c : Doc)
    (e : Effect) (i : Val) (hid : getField o.data "_id" = some i) :
    ((∀ doc ∈ coll, condMatches (setField c "_id" i) doc = false) →
      modify_if o coll c e = ⟨some DBErr.conditionNotMet, o, coll⟩)
    ∧ (∀ l1 doc l2, coll = l1 ++ doc :: l2 →
        (∀ d0 ∈ l1, condMatches (setField c "_id" i) d0 = false) →
        condMatches (setField c "_id" i) doc = true →
        modify_if o coll c e
          = ⟨none, ⟨applyEffect e doc⟩, l1 ++ applyEffect e doc :: l2⟩) := by
  constructor
  · intro h
    have hf := findAndModify_of_no_match coll (setField c "_id" i) e h
    simp [modify_if, hid, hf]
  · intro l1 doc l2 hcoll h1 hm
    subst hcoll
    have hf := findAndModify_split l1 l2 doc (setField c "_id" i) e h1 hm
    simp [modify_if, hid, hf]

theorem C2_modify_if_spec_witness :
    modify_if ⟨[("_id", Val.str "a"), ("n", Val.int 1)]⟩
        [[("_id", Val.str "a"), ("n", Val.int 1)]] [] (Effect.incOp "n" 2)
      = ⟨none, ⟨[("_id", Val.str "a"), ("n", Val.int 3)]⟩,
         [[("_id", Val.str "a"), ("n", Val.int 3)]]⟩ := by
  have h := C2_modify_if_spec ⟨[("_id", Val.str "a"), ("n", Val.int 1)]⟩
    [[("_id", Val.str "a"), ("n", Val.int 1)]] [] (Effect.incOp "n" 2)
    (Val.str "a") (by decide)
  have h2 := h.2 [] [("_id", Val.str "a"), ("n", Val.int 1)] [] rfl
    (by intro d0 hd0; simp at hd0) (by decide)
  simpa using h2

/-- C6: a field read through `DBObject.__getattr__` returns the local cache
value when the name is present in the cache, otherwise the declared default
when the name is present in the class's `defaults` mapping, and otherwise
raises `AttributeError`; the cache value always takes precedence over the
default. -/
theorem C6_getattr_cache_then_defaults (data defaults : Doc) (name : Field) :
    (∀ v, getField data name = some v →
      getattrFallback data defaults name = Except.ok v)
    ∧ (∀ v, getField data name = none → getField defaults name = some v →
      getattrFallback data defaults name = Except.ok v)
    ∧ (getField data name = none → getField defaults name = none →
      getattrFallback data defaults name = Except.error DBErr.attrErr) := by
  refine ⟨?_, ?_, ?_⟩
  · intro v hv
    simp [getattrFallback, hv]
  · intro v hnone hv
    simp [getattrFallback, hnone, hv]
  · intro hnone hnone2
    simp [getattrFallback, hnone, hnone2]

theorem C6_getattr_cache_then_defaults_witness :
    getattrFallback [("a", Val.int 1)] [("a", Val.int 2)] "a"
      = Except.ok (Val.int 1) := by
  have h := C6_getattr_cache_then_defaults [("a", Val.int 1)]
    [("a", Val.int 2)] "a"
  exact h.1 (Val.int 1) (by decide)

/-- C7 counterexample: in `create_course`, an `AttributeError` raised while
`self.handler` does have the `user` attribute is silently absorbed (the
`except AttributeError` clause has no re-raise branch), not propagated, so
the claim that such exceptions propagate out of the handler is false. -/
theorem C7_create_course_counterexample :
    createCourseExcept Exc.attrErr true = HandlerOutcome.swallowed
    ∧ createCourseExcept Exc.attrErr true
        ≠ HandlerOutcome.propagated Exc.attrErr := by
  decide

/-- C7 amended: in `assign_course_to_current_room` the catches are scoped
narrowly (a `KeyError` raised while `course_id` is present in the message
propagates, and an `AttributeError` raised while the handler has both the
`user` attribute and a loaded `room_code` propagates); in `create_course`,
however, a `KeyError` is always answered with a malformed-message notice
regardless of whether `name` is present, and an `AttributeError` raised
while the handler has the `user` attribute is silently swallowed. -/
theorem C7_narrow_catch_amended (inMsg hasUser roomLoaded : Bool) :
    (inMsg = true →
      assignCourseExcept Exc.keyErr inMsg hasUser roomLoaded
        = HandlerOutcome.propagated Exc.keyErr)
    ∧ (hasUser = true → roomLoaded = true →
      assignCourseExcept Exc.attrErr inMsg hasUser roomLoaded
        = HandlerOutcome.propagated Exc.attrErr)
    ∧ (hasUser = true →
      createCourseExcept Exc.attrErr hasUser = HandlerOutcome.swallowed)
    ∧ createCourseExcept Exc.keyErr hasUser
        = HandlerOutcome.sentMalformed := by
  cases inMsg <;> cases hasUser <;> cases roomLoaded <;> decide

theorem C7_narrow_catch_amended_witness :
    assignCourseExcept Exc.keyErr true true true
      = HandlerOutcome.propagated Exc.keyErr := by
  have h := C7_narrow_catch_amended true true true
  exact h.1 rfl

/-- C10: a dotted attribute assignment on a stored object is asymmetric: if
the name already resolves (instance attribute, cached field, or declared
default), a plain instance attribute is set — neither the local cache nor
the backing store is touched, and the instance attribute thereafter shadows
the cached field on reads; only if the name resolves nowhere is the local
cache updated immediately and an unconditional background `store` with
`update_data=False` scheduled. -/
theorem C10_setattr_asymmetry (defaults : Doc) (o : PyObj) (name : Field)
    (value : Val) :
    (hasattrPy defaults o name = true →
      (setattrPy defaults o name value).obj.data = o.data
      ∧ (setattrPy defaults o name value).scheduled = none
      ∧ readAttrPy defaults (setattrPy defaults o name value).obj name
          = Except.ok value)
    ∧ (hasattrPy defaults o name = false →
      (setattrPy defaults o name value).obj.instAttrs = o.instAttrs
      ∧ (setattrPy defaults o name value).obj.data
          = setField o.data name value
      ∧ (setattrPy defaults o name value).scheduled
          = some (name, value, false)) := by
  constructor
  · intro h
    refine ⟨by simp [setattrPy, h], by simp [setattrPy, h], ?_⟩
    simp [setattrPy, h, readAttrPy, getField_setField]
  · intro h
    exact ⟨by simp [setattrPy, h], by simp [setattrPy, h],
      by simp [setattrPy, h]⟩

theorem C10_setattr_asymmetry_witness :
    ((setattrPy [] ⟨[], [("_id", Val.str "u"), ("x", Val.int 1)]⟩ "x"
        (Val.int 2)).obj.data = [("_id", Val.str "u"), ("x", Val.int 1)])
    ∧ readAttrPy []
        (setattrPy [] ⟨[], [("_id", Val.str "u"), ("x", Val.int 1)]⟩ "x"
          (Val.int 2)).obj "x" = Except.ok (Val.int 2) := by
  have h := C10_setattr_asymmetry []
    ⟨[], [("_id", Val.str "u"), ("x", Val.int 1)]⟩ "x" (Val.int 2)
  exact ⟨(h.1 (by decide)).1, (h.1 (by decide)).2.2⟩

theorem store_dict_if_of_matched_one (o : DBObject) (coll : Collection)
    (c d : Doc) (ud : Bool) (i : Val)
    (hid : getField o.data "_id" = some i)
    (hn : (collUpdate coll (setField c "_id" i) d).2 = 1) :
    store_dict_if o coll c d ud
      = ⟨none, if ud then ⟨dictUpdate o.data d⟩ else o,
         (collUpdate coll (setField c "_id" i) d).1⟩ := by
  simp only [store_dict_if, hid, hn]
  split_ifs <;> simp_all

/-- C1: for every stored object, dict condition and dict mapping,
`store_dict_if` issues a single backend update whose filter is the condition
augmented with the object's id; the backend mutates exactly the documents
satisfying that filter by merging the `$set` dict; a zero matched count
raises `ConditionNotMetError` with the backing collection and the local
cache unchanged; on success with `update_data=True` exactly the entries of
the mapping are written into the local cache (every other entry is
unchanged) without a re-read, and with `update_data=False` the local cache
is unchanged. -/
theorem C1_store_dict_if_spec (o : DBObject) (coll : Collection) (c d : Doc)
    (ud : Bool) (i : Val) (hid : getField o.data "_id" = some i)
    (hnd : (docKeys d).Nodup) :
    ((store_dict_if o coll c d ud).coll
      = coll.map (fun doc =>
          if condMatches (setField c "_id" i) doc then dictUpdate doc d
          else doc))
    ∧ ((∀ doc ∈ coll, condMatches (setField c "_id" i) doc = false) →
        store_dict_if o coll c d ud
          = ⟨some DBErr.conditionNotMet, o, coll⟩)
    ∧ ((coll.filter
          (fun doc => condMatches (setField c "_id" i) doc)).length = 1 →
        (store_dict_if o coll c d ud).err = none
        ∧ (ud = true →
            ∀ k, getField (store_dict_if o coll c d ud).obj.data k
              = ((getField d k).or (getField o.data k)))
        ∧ (ud = false → (store_dict_if o coll c d ud).obj = o)) := by
  refine ⟨?_, ?_, ?_⟩
  · simp only [store_dict_if, hid]
    split_ifs <;> rfl
  · intro h
    have h0 : (collUpdate coll (setField c "_id" i) d).2 = 0 :=
      collUpdate_snd_eq_zero coll (setField c "_id" i) d h
    have hc : (collUpdate coll (setField c "_id" i) d).1 = coll :=
      collUpdate_fst_of_no_match coll (setField c "_id" i) d h
    simp [store_dict_if, hid, h0, hc]
  · intro hlen
    have hn : (collUpdate coll (setField c "_id" i) d).2 = 1 := hlen
    have hres := store_dict_if_of_matched_one o coll c d ud i hid hn
    refine ⟨by simp [hres], ?_, ?_⟩
    · intro hud k
      subst hud
      simp only [hres, if_true]
      exact getField_dictUpdate o.data d k hnd
    · intro hud
      subst hud
      simp [hres]

theorem C1_store_dict_if_spec_witness :
    (store_dict_if ⟨[("_id", Val.str "c1")]⟩ [[("_id", Val.str "c1")]] []
        [("x", Val.int 1)] true).err = none
    ∧ getField (store_dict_if ⟨[("_id", Val.str "c1")]⟩
        [[("_id", Val.str "c1")]] [] [("x", Val.int 1)] true).obj.data "x"
      = some (Val.int 1) := by
  have h := C1_store_dict_if_spec ⟨[("_id", Val.str "c1")]⟩
    [[("_id", Val.str "c1")]] [] [("x", Val.int 1)] true (Val.str "c1")
    (by decide) (by decide)
  have h3 := h.2.2 (by decide)
  exact ⟨h3.1, by rw [h3.2.1 rfl "x"]; decide⟩

/-- C4: in `store_dict_if`, a matched-document count greater than one makes
the `assert result['n'] in (0, 1)` fail (raising `AssertionError` rather
than silently accepting the result), in which case the local cache is not
updated; and under the invariant that at most one document in the collection
has any given id, the assertion never fires. -/
theorem C4_matched_count_assertion (o : DBObject) (coll : Collection)
    (c d : Doc) (ud : Bool) (i : Val)
    (hid : getField o.data "_id" = some i) :
    (2 ≤ (coll.filter
        (fun doc => condMatches (setField c "_id" i) doc)).length →
      (store_dict_if o coll c d ud).err = some DBErr.assertionErr
      ∧ (store_dict_if o coll c d ud).obj = o)
    ∧ ((∀ v : Val,
        (coll.filter
          (fun doc => decide (getField doc "_id" = some v))).length ≤ 1) →
      (store_dict_if o coll c d ud).err ≠ some DBErr.assertionErr) := by
  constructor
  · intro h2
    have hn : 2 ≤ (collUpdate coll (setField c "_id" i) d).2 := h2
    constructor <;> simp [store_dict_if, hid, hn]
  · intro hinv
    have hmono : (coll.filter
          (fun doc => condMatches (setField c "_id" i) doc)).length
        ≤ (coll.filter
          (fun doc => decide (getField doc "_id" = some i))).length := by
      rw [← List.countP_eq_length_filter, ← List.countP_eq_length_filter]
      refine List.countP_mono_left ?_
      intro doc _ hp
      have := condMatches_getField (mem_setField c "_id" i) hp
      simpa using this
    have hle : (collUpdate coll (setField c "_id" i) d).2 ≤ 1 :=
      le_trans hmono (hinv i)
    have hnot : ¬ 2 ≤ (collUpdate coll (setField c "_id" i) d).2 := by
      omega
    simp only [store_dict_if, hid]
    split_ifs with ha hb <;> simp_all

theorem C4_matched_count_assertion_witness :
    (store_dict_if ⟨[("_id", Val.str "a")]⟩
        [[("_id", Val.str "a")], [("_id", Val.str "a")]] [] [] true).err
      = some DBErr.assertionErr := by
  have h := C4_matched_count_assertion ⟨[("_id", Val.str "a")]⟩
    [[("_id", Val.str "a")], [("_id", Val.str "a")]] [] [] true
    (Val.str "a") (by decide)
  exact (h.1 (by decide)).1

/-- C3 counterexample: the empty string is a given id (exactly one of the
two arguments is given), yet it is falsy in Python, so `get` falls through
both fetch branches and raises the invalid-argument `ValueError`; being
given exactly one argument is therefore not sufficient to avoid the
invalid-argument error. -/
theorem C3_get_counterexample :
    get "courses" [] (some (Val.str "")) none
      = Except.error DBErr.valueErr := by
  decide

/-- C3 amended: `get` raises `ValueError` when both arguments are given,
when neither is given, or when the given dbref's collection differs from
the class's collection; it raises `NoObjectReturnedFromDB` when the
referenced document does not exist; on success it returns an object whose
local cache equals the fetched document.  Exactly one of the two arguments
being given avoids the invalid-argument error only if a given `id_` is
additionally truthy (for example a nonempty string); a falsy given `id_`
with no dbref still raises `ValueError`. -/
theorem C3_get_amended (collName : String) (coll : Collection)
    (idArg : Option Val) (i : Val) (r : DBRefM) :
    (get collName coll (some i) (some r) = Except.error DBErr.valueErr)
    ∧ (get collName coll none none = Except.error DBErr.valueErr)
    ∧ (¬ r.collection = collName →
        get collName coll idArg (some r) = Except.error DBErr.valueErr)
    ∧ (pyTruthy i = true → findOne coll [("_id", i)] = none →
        get collName coll (some i) none
          = Except.error DBErr.noObjectReturned)
    ∧ (∀ doc, pyTruthy i = true → findOne coll [("_id", i)] = some doc →
        get collName coll (some i) none = Except.ok ⟨doc⟩)
    ∧ (r.collection = collName → dereference coll r = none →
        get collName coll none (some r)
          = Except.error DBErr.noObjectReturned)
    ∧ (∀ doc, r.collection = collName → dereference coll r = some doc →
        get collName coll none (some r) = Except.ok ⟨doc⟩) := by
  refine ⟨?_, ?_, ?_, ?_, ?_, ?_, ?_⟩
  · simp [get, checkGetArguments]
  · simp [get, checkGetArguments]
  · intro hcoll
    cases idArg with
    | some j => simp [get, checkGetArguments]
    | none => simp [get, checkGetArguments, hcoll]
  · intro htr hfind
    simp [get, checkGetArguments, htr, hfind, wrapFetched]
  · intro doc htr hfind
    have hfind2 : List.find? (fun d0 => condMatches [("_id", i)] d0) coll
        = some doc := hfind
    have hm : condMatches [("_id", i)] doc = true := List.find?_some hfind2
    have hne : doc.isEmpty = false := condMatches_singleton_ne_nil hm
    simp [get, checkGetArguments, htr, hfind, wrapFetched, hne]
  · intro hcoll hder
    simp [get, checkGetArguments, hcoll, hder, wrapFetched]
  · intro doc hcoll hder
    have hder2 : List.find? (fun d0 => condMatches [("_id", r.id)] d0) coll
        = some doc := hder
    have hm : condMatches [("_id", r.id)] doc = true := List.find?_some hder2
    have hne : doc.isEmpty = false := condMatches_singleton_ne_nil hm
    simp [get, checkGetArguments, hcoll, hder, wrapFetched, hne]

theorem C3_get_amended_witness :
    get "courses" [[("_id", Val.str "a")]] (some (Val.str "a")) none
      = Except.ok ⟨[("_id", Val.str "a")]⟩ := by
  have h := C3_get_amended "courses" [[("_id", Val.str "a")]] none
    (Val.str "a") ⟨"courses", Val.str "a"⟩
  exact h.2.2.2.2.1 [("_id", Val.str "a")] (by decide) (by decide)

/-- C5 counterexample: the cache holds a local-only value for the named
field `x`, the backing document exists but has no `x`, and `sync('x')`
leaves the local value in place (the field projection returns only `_id`,
and `dict.update` removes nothing), contradicting the claim that any
local-only value for each named field is discarded. -/
theorem C5_sync_counterexample :
    sync ⟨[("_id", Val.str "u"), ("x", Val.int 5)]⟩
        [[("_id", Val.str "u")]] ["x"]
      = Except.ok ⟨[("_id", Val.str "u"), ("x", Val.int 5)]⟩ := by
  decide

/-- C5 amended: `sync` re-reads the named fields from the backing store into
the local cache, replacing the local value of each named field that is
present in the backing document; a named field absent from the backing
document keeps its local value.  When no fields are named the entire local
cache is replaced by the freshly fetched document, and `sync` raises
`NoObjectReturnedFromDB` when the document no longer exists. -/
theorem C5_sync_amended (o : DBObject) (coll : Collection)
    (fields : List Field) (i : Val) (doc : Doc)
    (hid : getField o.data "_id" = some i) :
    (findOne coll [("_id", i)] = none →
      sync o coll fields = Except.error DBErr.noObjectReturned)
    ∧ (fields = [] → findOne coll [("_id", i)] = some doc →
      sync o coll fields = Except.ok ⟨doc⟩)
    ∧ (fields ≠ [] → findOne coll [("_id", i)] = some doc →
        (docKeys doc).Nodup →
        ∃ o2, sync o coll fields = Except.ok o2
          ∧ (∀ k v, k ∈ fields → getField doc k = some v →
              getField o2.data k = some v)
          ∧ (∀ k, k ∉ fields → ¬ k = "_id" →
              getField o2.data k = getField o.data k)
          ∧ (∀ k, k ∈ fields → getField doc k = none →
              getField o2.data k = getField o.data k)) := by
  refine ⟨?_, ?_, ?_⟩
  · intro hfind
    simp [sync, hid, hfind]
  · intro hf hfind
    subst hf
    have hm : condMatches [("_id", i)] doc = true :=
      List.find?_some (show List.find? (fun d0 => condMatches [("_id", i)] d0)
        coll = some doc from hfind)
    have hne : doc.isEmpty = false := condMatches_singleton_ne_nil hm
    simp [sync, hid, hfind, hne]
  · intro hfne hfind hnodup
    have hm : condMatches [("_id", i)] doc = true :=
      List.find?_some (show List.find? (fun d0 => condMatches [("_id", i)] d0)
        coll = some doc from hfind)
    have hdocid : getField doc "_id" = some i :=
      condMatches_getField (by simp) hm
    have hproj : getField (projectDoc doc fields) "_id" = some i := by
      rw [getField_projectDoc]
      simp [hdocid]
    have hpne : (projectDoc doc fields).isEmpty = false := by
      cases hp : projectDoc doc fields with
      | nil => rw [hp] at hproj; simp [getField] at hproj
      | cons a l => simp [List.isEmpty]
    have hfieldsne : fields.isEmpty = false := by
      cases fields with
      | nil => exact absurd rfl hfne
      | cons a l => simp
    have hnodproj : (docKeys (projectDoc doc fields)).Nodup :=
      docKeys_projectDoc_nodup doc fields hnodup
    refine ⟨⟨dictUpdate o.data (projectDoc doc fields)⟩, ?_, ?_, ?_, ?_⟩
    · simp [sync, hid, hfind, hfieldsne, hpne]
    · intro k v hk hv
      rw [getField_dictUpdate _ _ _ hnodproj, getField_projectDoc]
      simp [hk, hv]
    · intro k hk hkid
      rw [getField_dictUpdate _ _ _ hnodproj, getField_projectDoc]
      simp [hk, hkid]
    · intro k hk hv
      rw [getField_dictUpdate _ _ _ hnodproj, getField_projectDoc]
      simp [hk, hv]

theorem C5_sync_amended_witness :
    sync ⟨[("_id", Val.str "u"), ("x", Val.int 5)]⟩
        [[("_id", Val.str "u"), ("x", Val.int 9)]] []
      = Except.ok ⟨[("_id", Val.str "u"), ("x", Val.int 9)]⟩ := by
  have h := C5_sync_amended ⟨[("_id", Val.str "u"), ("x", Val.int 5)]⟩
    [[("_id", Val.str "u"), ("x", Val.int 9)]] [] (Val.str "u")
    [("_id", Val.str "u"), ("x", Val.int 9)] (by decide)
  exact h.2.1 rfl (by decide)

/-- C8: the local-channel handler of `course.assignment.ok` performs no
store sync and no course re-derivation when the connection's
`course_assignment_source` flag is set and true — the user object and the
session context come back unchanged — while still forwarding a
`course.assignment.ok` notice on channel `w`; when the flag is absent or
false it syncs the user's `course_id` from the store and, if the synced
value is not `None`, re-fetches the course into the session context, again
forwarding the notice on channel `w` in both cases. -/
theorem C8_sync_forward_spec (userDefaults : Doc) (user : DBObject)
    (userColl : Collection) (ccName : String) (courseColl : Collection)
    (ctx : LessonCtx) (flag : Option Bool) :
    (flag = some true →
      sync_course_id_and_forward_to_client flag userDefaults user userColl
          ccName courseColl ctx
        = ⟨none, user, ctx, ["course.assignment.ok"]⟩)
    ∧ (flag.getD false = false →
      ∀ user2, sync user userColl ["course_id"] = Except.ok user2 →
      ∀ cid, getattrFallback user2.data userDefaults "course_id"
          = Except.ok cid →
        (cid = Val.null →
          sync_course_id_and_forward_to_client flag userDefaults user
              userColl ccName courseColl ctx
            = ⟨none, user2, ctx, ["course.assignment.ok"]⟩)
        ∧ (∀ course, ¬ cid = Val.null →
            get ccName courseColl (some cid) none = Except.ok course →
            sync_course_id_and_forward_to_client flag userDefaults user
                userColl ccName courseColl ctx
              = ⟨none, user2, ⟨some course⟩,
                 ["course.assignment.ok"]⟩)) := by
  constructor
  · intro hflag
    subst hflag
    simp [sync_course_id_and_forward_to_client]
  · intro hflag user2 hsync cid hattr
    constructor
    · intro hnull
      subst hnull
      simp [sync_course_id_and_forward_to_client, hflag, hsync, hattr]
    · intro course hnn hget
      simp [sync_course_id_and_forward_to_client, hflag, hsync, hattr,
        hnn, hget]

theorem C8_sync_forward_spec_witness :
    sync_course_id_and_forward_to_client none [] ⟨[("_id", Val.str "u")]⟩
        [[("_id", Val.str "u"), ("course_id", Val.str "c")]] "courses"
        [[("_id", Val.str "c")]] ⟨none⟩
      = ⟨none, ⟨[("_id", Val.str "u"), ("course_id", Val.str "c")]⟩,
         ⟨some ⟨[("_id", Val.str "c")]⟩⟩, ["course.assignment.ok"]⟩ := by
  have h := C8_sync_forward_spec [] ⟨[("_id", Val.str "u")]⟩
    [[("_id", Val.str "u"), ("course_id", Val.str "c")]] "courses"
    [[("_id", Val.str "c")]] ⟨none⟩ none
  exact (h.2 rfl ⟨[("_id", Val.str "u"), ("course_id", Val.str "c")]⟩
    (by decide) (Val.str "c") (by decide)).2 ⟨[("_id", Val.str "c")]⟩
    (by decide) (by decide)

/-- C9 counterexample: no document with the empty-string id exists, yet
`create("")` neither returns an object whose cache equals the fetched
document nor raises the duplicate-key error: the insert succeeds and the
subsequent `get("")` falls through both fetch branches (the empty string is
falsy in Python) and raises the invalid-argument `ValueError`. -/
theorem C9_create_counterexample :
    create "courses" [] (Val.str "") = Except.error DBErr.valueErr := by
  decide

/-- C9 amended: `create(id)` inserts a new document containing only the
identifier field and then performs `get(id)`; when no document with that id
exists and the id is truthy (for example a nonempty string) it returns an
object whose cache equals the fetched document, but when the id is falsy
(for example the empty string) the insert still happens and the subsequent
`get` raises `ValueError` instead of returning the object; when a document
with that id already exists the insert raises the backing store's
duplicate-key error and no second document is created; and the
`create_course` handler translates the duplicate-key error into a duplicate
result on the originating channel. -/
theorem C9_create_amended (collName : String) (coll : Collection) (i : Val)
    (hasUser : Bool) :
    ((∀ doc ∈ coll, ¬ getField doc "_id" = some i) → pyTruthy i = true →
      create collName coll i
        = Except.ok (⟨[("_id", i)]⟩, coll ++ [[("_id", i)]]))
    ∧ ((∀ doc ∈ coll, ¬ getField doc "_id" = some i) → pyTruthy i = false →
      create collName coll i = Except.error DBErr.valueErr)
    ∧ ((∃ doc ∈ coll, getField doc "_id" = some i) →
      create collName coll i = Except.error DBErr.duplicateKey)
    ∧ createCourseExcept Exc.duplicateKey hasUser
        = HandlerOutcome.sentDuplicate := by
  have hinsOk : (∀ doc ∈ coll, ¬ getField doc "_id" = some i) →
      insertDoc coll [("_id", i)]
        = Except.ok (coll ++ [[("_id", i)]]) := by
    intro h
    have hany : coll.any (fun d0 =>
        decide (getField d0 "_id" = getField [("_id", i)] "_id"))
          = false := by
      rw [List.any_eq_false]
      intro d0 hd0
      simp [getField, h d0 hd0]
    simp [insertDoc, hany]
  refine ⟨?_, ?_, ?_, rfl⟩
  · intro h htr
    have hfo : findOne (coll ++ [[("_id", i)]]) [("_id", i)]
        = some [("_id", i)] := by
      unfold findOne
      rw [find?_append_of_none coll [[("_id", i)]]]
      · simp [List.find?, condMatches, getField]
      · intro doc hdoc
        cases hcm : condMatches [("_id", i)] doc
        · rfl
        · exact absurd (condMatches_getField (by simp) hcm) (h doc hdoc)
    simp [create, hinsOk h, get, checkGetArguments, htr, hfo, wrapFetched]
  · intro h htr
    simp [create, hinsOk h, get, checkGetArguments, htr]
  · intro hex
    obtain ⟨doc, hdoc, hdid⟩ := hex
    have hany : coll.any (fun d0 =>
        decide (getField d0 "_id" = getField [("_id", i)] "_id"))
          = true :=
      List.any_eq_true.mpr ⟨doc, hdoc, by simp [getField, hdid]⟩
    simp [create, insertDoc, hany]

theorem C9_create_amended_witness :
    create "courses" [] (Val.str "c9")
      = Except.ok (⟨[("_id", Val.str "c9")]⟩, [[("_id", Val.str "c9")]]) := by
  have h := C9_create_amended "courses" [] (Val.str "c9") true
  simpa using h.1 (by simp) (by decide)

end ArtificialAlan
